import Mathlib

/-!
Verification of the Gecko_Shell command-line pipeline engine.

Shallow embedding of `src/utils.rs`, `src/redirect.rs`, `src/parser.rs` and
the loop body of `src/main.rs`.  Strings are modelled at the character level
(`String` / `List Char`); operating-system side effects (file opens, process
spawns, writes to the error stream) are recorded in an explicit effect trace,
and OS-level failures of those operations are modelled as succeeding, since
no property below depends on them failing.  Rust panics (out-of-bounds
indexing, `Option::unwrap` on `None`, `.expect`) are modelled as a distinct
`Res.panic` outcome, since a panic aborts the shell process rather than
returning an error value.
-/

/-- File-open modes used by the redirect handlers in `src/redirect.rs`. -/
inductive FileMode where
  /-- `OpenOptions::new().create(true).append(true)` (the `>>` handler). -/
  | appendCreate
  /-- Create-or-truncate for writing: `File::create` and
  `OpenOptions::new().write(true).create(true).truncate(true)`. -/
  | truncCreate
  /-- `File::open` (read-only, the `<` handler). -/
  | readOnly
deriving Repr, DecidableEq

/-- A stream binding of a `std::process::Command`: either a file handle, an
anonymous pipe (`Stdio::piped()`), or the standard-output endpoint of an
already-spawned child process (`child.stdout.unwrap()` in `handle_pipe`).
The `childStdout` constructor carries the spawned child's full configuration
(program, arguments and its own three stream bindings, `none` = inherit). -/
inductive Stdio where
  | file (name : String) (mode : FileMode)
  | piped
  | childStdout (program : String) (args : List String)
      (stdin stdout stderr : Option Stdio)

/-- Model of `std::process::Command` as configured by this program: program
name, argument list, and the three stream bindings (`none` means inherit from
the parent, as a fresh `Command::new` has). -/
structure Cmd where
  program : String
  args : List String
  stdin : Option Stdio := none
  stdout : Option Stdio := none
  stderr : Option Stdio := none

/-- The standard-output endpoint of `c` spawned as a child process. -/
def Stdio.ofChild (c : Cmd) : Stdio :=
  .childStdout c.program c.args c.stdin c.stdout c.stderr

/-- Observable side effects performed during assembly of a line. -/
inductive Effect where
  /-- A file opened/created by name with the given mode. -/
  | openFile (name : String) (mode : FileMode)
  /-- A process spawned mid-assembly (`spawn()` in `handle_pipe`). -/
  | spawn (c : Cmd)
  /-- `command.output()` in `handle_stderr_redirect`: spawn, wait, capture. -/
  | execOutput (c : Cmd)
  /-- `io::stderr().write_all(&output.stderr)` in `handle_stderr_redirect`. -/
  | writeStderr
  /-- `eprintln!` diagnostic in `parse_line`. -/
  | printError (msg : String)

/-- Outcome of a fallible Rust computation: `ok` mirrors `Ok`, `err` mirrors
`Err(io::Error)` (keeping its message), and `panic` mirrors a Rust panic,
which aborts the whole shell process. -/
inductive Res (α : Type) where
  | ok : α → Res α
  | err : String → Res α
  | panic : String → Res α

/-- Rust `str::find` restricted to the single-character patterns this program
uses: index of the first occurrence of `c`. -/
def strFind (s : List Char) (c : Char) : Option Nat :=
  match s with
  | [] => none
  | x :: xs => if x = c then some 0 else (strFind xs c).map (· + 1)

/-- Rust `str::rfind` restricted to single-character patterns: index of the
last occurrence of `c`. -/
def strRfind (s : List Char) (c : Char) : Option Nat :=
  match s with
  | [] => none
  | x :: xs =>
    match strRfind xs c with
    | some n => some (n + 1)
    | none => if x = c then some 0 else none

/-- `is_special` from `src/utils.rs` lines 115-126: a token is special iff it
has length 1 and is one of `<`, `>`, `!`, `|`, or has length 2 and its last
`>` occurrence is at index 1. -/
def is_special (token : String) : Bool :=
  (token.length == 1 &&
    (strFind token.data '<' == some 0 || strFind token.data '>' == some 0 ||
     strFind token.data '!' == some 0 || strFind token.data '|' == some 0))
  || (token.length == 2 && strRfind token.data '>' == some 1)

/-- `handle_append_redirect` from `src/redirect.rs` lines 60-75: opens
`tokens[0]` in create/append mode (panicking on an empty slice, as the Rust
indexing does, before any file is opened), then binds it as the stdout of the
unwrapped accumulator. -/
def handle_append_redirect (tokens : List String) (process : Option Cmd) :
    Res (Option Cmd) × List Effect :=
  match tokens with
  | [] => (.panic "index out of bounds", [])
  | fname :: _ =>
    match process with
    | none => (.panic "unwrap on None", [.openFile fname .appendCreate])
    | some p =>
      (.ok (some { p with stdout := some (.file fname .appendCreate) }),
       [.openFile fname .appendCreate])

/-- `handle_stderr_redirect` from `src/redirect.rs` lines 87-118: usage error
on a missing file name; otherwise creates the file, binds it as the stderr of
the unwrapped accumulator, runs `command.output()` immediately, copies the
captured stderr to the real error stream, and returns the same command. -/
def handle_stderr_redirect (tokens : List String) (process : Option Cmd) :
    Res (Option Cmd) × List Effect :=
  match tokens with
  | [] => (.err "Usage: <command> [args] 2> <file>", [])
  | file_name :: _ =>
    match process with
    | none => (.panic "unwrap on None", [.openFile file_name .truncCreate])
    | some p =>
      let command : Cmd := { p with stderr := some (.file file_name .truncCreate) }
      (.ok (some command),
       [.openFile file_name .truncCreate, .execOutput command, .writeStderr])

/-- `handle_stdout_stderr_redirect` from `src/redirect.rs` lines 131-156:
opens `tokens[0]` twice in create/truncate mode (panicking on an empty slice)
and binds the two handles as stdout and stderr of the unwrapped accumulator. -/
def handle_stdout_stderr_redirect (tokens : List String) (process : Option Cmd) :
    Res (Option Cmd) × List Effect :=
  match tokens with
  | [] => (.panic "index out of bounds", [])
  | fname :: _ =>
    match process with
    | none =>
      (.panic "unwrap on None",
       [.openFile fname .truncCreate, .openFile fname .truncCreate])
    | some p =>
      (.ok (some { p with stdout := some (.file fname .truncCreate),
                          stderr := some (.file fname .truncCreate) }),
       [.openFile fname .truncCreate, .openFile fname .truncCreate])

/-- `handle_stdout_redirect` from `src/redirect.rs` lines 168-184: opens
`tokens[0]` in create/truncate mode (panicking on an empty slice) and binds
it as the stdout of the unwrapped accumulator. -/
def handle_stdout_redirect (tokens : List String) (process : Option Cmd) :
    Res (Option Cmd) × List Effect :=
  match tokens with
  | [] => (.panic "index out of bounds", [])
  | fname :: _ =>
    match process with
    | none => (.panic "unwrap on None", [.openFile fname .truncCreate])
    | some p =>
      (.ok (some { p with stdout := some (.file fname .truncCreate) }),
       [.openFile fname .truncCreate])

/-- `handle_stdin_redirect` from `src/redirect.rs` lines 196-224: usage error
on a missing file name; otherwise opens the file read-only and, via `ok_or`
(not `unwrap`), either errors when no accumulator exists or binds the file as
its stdin. -/
def handle_stdin_redirect (tokens : List String) (process : Option Cmd) :
    Res (Option Cmd) × List Effect :=
  match tokens with
  | [] => (.err "Usage: <command> [args] < <file>", [])
  | file_name :: _ =>
    match process with
    | none =>
      (.err "Usage: <command> [args] < <file>", [.openFile file_name .readOnly])
    | some p =>
      (.ok (some { p with stdin := some (.file file_name .readOnly) }),
       [.openFile file_name .readOnly])

/-- `handle_pipe` from `src/redirect.rs` lines 238-263: usage error when the
right-hand side is empty; otherwise builds the right-hand command from the
segment, spawns the unwrapped accumulator with its stdout set to a pipe, and
binds that child's stdout endpoint as the new command's stdin. -/
def handle_pipe (commands : List String) (process : Option Cmd) :
    Res (Option Cmd) × List Effect :=
  match commands with
  | [] => (.err "Usage: <command> | <command>", [])
  | prog :: rest =>
    match process with
    | none => (.panic "unwrap on None", [])
    | some p =>
      let lhs : Cmd := { p with stdout := some .piped }
      (.ok (some { program := prog, args := rest,
                   stdin := some (Stdio.ofChild lhs) }),
       [.spawn lhs])

/-- `redirect` from `src/redirect.rs` lines 17-46: dispatches on the
redirector spelling; any other redirector (including the empty string passed
for plain operand segments) builds a fresh command from the segment, whose
first-element access panics if the segment is empty. -/
def redirect (redirector : String) (command : List String) (process : Option Cmd) :
    Res (Option Cmd) × List Effect :=
  if redirector = ">>" then handle_append_redirect command process
  else if redirector = "2>" then handle_stderr_redirect command process
  else if redirector = "&>" then handle_stdout_stderr_redirect command process
  else if redirector = ">" ∨ redirector = "1>" then
    handle_stdout_redirect command process
  else if redirector = "<" then handle_stdin_redirect command process
  else if redirector = "|" then handle_pipe command process
  else
    match command with
    | [] => (.panic "index out of bounds", [])
    | prog :: rest => (.ok (some { program := prog, args := rest }), [])

/-- `parse_line` from `src/utils.rs` lines 68-103: on empty tokens return the
accumulator; otherwise peel a leading special token as the redirector (error
if there is one but no accumulator), split the remainder at the first special
token, feed redirector and segment to `redirect`, and recurse on the
leftover.  The effect trace concatenates the step's effects with the
recursion's; `err` and `panic` outcomes propagate, ending assembly. -/
def parse_line (tokens : List String) (process : Option Cmd) :
    Res (Option Cmd) × List Effect :=
  match tokens with
  | [] => (.ok process, [])
  | t0 :: rest =>
    if is_special t0 = true then
      if process.isNone then
        (.ok none, [.printError ("Error: Expected program, found " ++ t0)])
      else
        let si := rest.findIdx (fun x => is_special x)
        match redirect t0 (rest.take si) process with
        | (.ok np, effs) =>
          let r := parse_line (rest.drop si) np
          (r.1, effs ++ r.2)
        | (.err e, effs) => (.err e, effs)
        | (.panic m, effs) => (.panic m, effs)
    else
      -- `t0` is not special, so splitting `t0 :: rest` at its first special
      -- token keeps `t0` at the head of the operand segment and the first
      -- special token of `rest` starts the leftover, exactly as
      -- `tokens.split_at(splitter_index)` does in the Rust.
      let si := rest.findIdx (fun x => is_special x)
      match redirect "" (t0 :: rest.take si) process with
      | (.ok np, effs) =>
        let r := parse_line (rest.drop si) np
        (r.1, effs ++ r.2)
      | (.err e, effs) => (.err e, effs)
      | (.panic m, effs) => (.panic m, effs)
termination_by tokens.length
decreasing_by
  · simp only [List.length_drop, List.length_cons]
    omega
  · simp only [List.length_drop, List.length_cons]
    omega

/-- Whitespace characters separating tokens outside quotes. -/
def isWs (c : Char) : Bool := c = ' ' || c = '\t' || c = '\n' || c = '\r'

/-- Pushes the in-progress word (held in reverse) onto the reversed token
accumulator, dropping empty words. -/
def pushWord (cur : List Char) (acc : List String) : List String :=
  if cur.isEmpty then acc else String.mk cur.reverse :: acc

/-- Modelled from the spec: the pest grammar file `grammar.pest` referenced by
`src/parser.rs` is not in the source tree, so tokenization is modelled from
the spec's lexer contract: whitespace outside quotes is the sole token
separator, a double-quoted span is one token, an unterminated quote fails
the parse (`none`), and an empty or whitespace-only line yields an empty
token sequence.  The quoted case emits the span's characters with the two
quote delimiters removed, mirroring `&token[1..token.len() - 1]` in
`src/parser.rs` lines 24-29.  `inQuote` says whether we are inside a quoted
span; `cur` holds the current token's characters in reverse; `acc` holds the
finished tokens in reverse. -/
def lexAux : List Char → Bool → List Char → List String → Option (List String)
  | [], true, _, _ => none
  | [], false, cur, acc => some (pushWord cur acc).reverse
  | c :: cs, true, cur, acc =>
    if c = '"' then lexAux cs false [] (String.mk cur.reverse :: acc)
    else lexAux cs true (c :: cur) acc
  | c :: cs, false, cur, acc =>
    if isWs c then lexAux cs false [] (pushWord cur acc)
    else if c = '"' then lexAux cs true [] (pushWord cur acc)
    else lexAux cs false (c :: cur) acc

/-- Tokenization of one raw input line (see `lexAux`). -/
def lex (line : String) : Option (List String) :=
  lexAux line.data false [] []

/-- `parse` from `src/parser.rs` lines 10-43: runs the pest parser over the
line and calls `.expect("Failed to parse")` on the result, so a line the
grammar rejects panics (aborting the shell process) instead of returning an
error value. -/
def parse (to_parse : String) : Res (List String) :=
  match lex to_parse with
  | none => .panic "Failed to parse"
  | some tokens => .ok tokens

/-- What one call to `read_line` produced: a line of text (end of input is
`Ok(0)` with an empty buffer, i.e. `line ""`), or a read error. -/
inductive ReadResult where
  | line (s : String)
  | readErr

/-- `prompt_and_read` from `src/utils.rs` lines 12-27: on a successful read
the buffer is tokenized (which may panic, see `parse`) and returned as
`Some tokens`; on a read error a diagnostic is printed and `None` is
returned. -/
def prompt_and_read (r : ReadResult) : Res (Option (List String)) :=
  match r with
  | .line s =>
    match parse s with
    | .ok tokens => .ok (some tokens)
    | .err e => .err e
    | .panic m => .panic m
  | .readErr => .ok none

/-- The names `builtin` in `src/builtin.rs` lines 24-106 matches against the
first token (`commands.first().unwrap_or(&String::new())`). -/
def builtin_names : List String :=
  ["ls", "rm", "touch", "cd", "pwd", "history", "clear", "cat"]

/-- Whether `builtin` handles the line, i.e. whether the first token (or ""
for an empty line) is a recognized built-in name.  `main` runs the pipeline
engine only when `builtin` returns `Ok(false)`, the `_ => Ok(false)` arm. -/
def is_builtin (tokens : List String) : Bool :=
  builtin_names.contains (tokens.headD "")

/-- What one iteration of `main`'s loop decides. -/
inductive IterResult where
  /-- Fall through to the next loop iteration (the next prompt). -/
  | next
  /-- The `break` statement: the read-eval loop ends. -/
  | brk
  /-- A panic aborted the whole shell process. -/
  | panicked (msg : String)

/-- One iteration of the `loop` in `src/main.rs` lines 43-82: read and
tokenize (a `None` from `prompt_and_read` becomes the empty token list via
`unwrap_or(Vec::new())`), dispatch to a built-in if the first token matches,
otherwise assemble with `parse_line(&tokens, None)` and, when that yields a
command, execute it; the loop `break`s only when execution fails and the
first token is `exit`.  `exec_fails` says whether spawning/waiting on the
assembled command fails (an OS-level outcome the model takes as a
parameter).  History bookkeeping mutates no state the loop decision reads,
so it is not modelled. -/
def main_iteration (r : ReadResult) (exec_fails : Bool) : IterResult :=
  match prompt_and_read r with
  | .panic m => .panicked m
  | .err _ => .next
  | .ok o =>
    let tokens := o.getD []
    if is_builtin tokens then .next
    else
      match parse_line tokens none with
      | (.ok (some _), _) =>
        if exec_fails then
          if tokens.headD "" = "exit" then .brk else .next
        else .next
      | (.panic m, _) => .panicked m
      | _ => .next

/-! ## Helper lemmas -/

/-- Evaluation of `strRfind` on a two-character token, compared against
index 1. -/
theorem strRfind_pair_beq (a b : Char) : (strRfind [a, b] '>' == some 1) = (b == '>') := by
  by_cases hb : b = '>'
  · simp [strRfind, hb]
  · by_cases ha : a = '>' <;> simp [strRfind, hb, ha]

/-- Shape characterization of the operator classifier on a character list. -/
theorem is_special_mk_iff (l : List Char) :
    is_special (String.mk l) = true ↔
      (l = ['<'] ∨ l = ['>'] ∨ l = ['|'] ∨ l = ['!'] ∨ ∃ c, l = [c, '>']) := by
  match l with
  | [] => simp [is_special, strFind, strRfind, String.length]
  | [a] =>
    by_cases h1 : a = '<'
    · subst h1; simp [is_special, strFind, String.length]
    by_cases h2 : a = '>'
    · subst h2; simp [is_special, strFind, String.length]
    by_cases h3 : a = '!'
    · subst h3; simp [is_special, strFind, String.length]
    by_cases h4 : a = '|'
    · subst h4; simp [is_special, strFind, String.length]
    simp [is_special, strFind, strRfind, String.length, h1, h2, h3, h4]
  | [a, b] =>
    by_cases hb : b = '>'
    · subst hb; simp [is_special, String.length, strRfind_pair_beq]
    · simp [is_special, String.length, strRfind_pair_beq, hb]
  | a :: b :: c :: t =>
    simp only [is_special, String.length, List.length_cons]
    have h1 : (t.length + 1 + 1 + 1 == 1) = false := by
      rw [beq_eq_false_iff_ne]; omega
    have h2 : (t.length + 1 + 1 + 1 == 2) = false := by
      rw [beq_eq_false_iff_ne]; omega
    simp [h1, h2]

/-- A quoted span is emitted as one token holding exactly the span's
characters: scanning in quote mode with pending characters `q` consumes up
to the closing quote and pushes the pending and span characters as the next
token. -/
theorem lexAux_quoted_go (s rest q : List Char) (acc : List String) (hs : '"' ∉ s) :
    lexAux (s ++ '"' :: rest) true q acc =
      lexAux rest false [] (String.mk (q.reverse ++ s) :: acc) := by
  induction s generalizing q with
  | nil => simp [lexAux]
  | cons c s ih =>
    have hc : ¬c = '"' := fun h => hs (h ▸ List.mem_cons_self c s)
    simp only [List.cons_append, lexAux, if_neg hc, List.append_eq]
    rw [ih (c :: q) (fun h => hs (List.mem_cons_of_mem c h))]
    simp

/-! ## Claim theorems -/

/-- C1: the operator classifier `is_special` returns true for exactly the
single-character tokens `<`, `>`, `|`, `!` and the two-character tokens
whose second character is `>`, and false for every other shape, including
the empty token and all tokens longer than two characters. -/
theorem is_special_exact_shape (t : String) :
    is_special t = true ↔
      (t.data = ['<'] ∨ t.data = ['>'] ∨ t.data = ['|'] ∨ t.data = ['!'] ∨
       ∃ c, t.data = [c, '>']) := by
  obtain ⟨l⟩ := t
  exact is_special_mk_iff l

/-- C2: on a non-empty token list with no operator tokens, `parse_line` with
an empty accumulator yields exactly one process specification whose program
is the first token and whose arguments are the remaining tokens in order,
performing no side effects. -/
theorem parse_line_no_operators (t0 : String) (rest : List String)
    (hall : ∀ x ∈ t0 :: rest, is_special x = false) :
    parse_line (t0 :: rest) none =
      (.ok (some { program := t0, args := rest }), []) := by
  have h0 : is_special t0 = false := hall t0 (List.mem_cons_self t0 rest)
  have hfi : rest.findIdx (fun x => is_special x) = rest.length :=
    List.findIdx_eq_length_of_false (fun x hx => hall x (List.mem_cons_of_mem _ hx))
  simp [parse_line, h0, hfi, redirect, List.take_length, List.drop_length]

/-- Witness for C2 at the token list `["echo", "hi"]`. -/
theorem parse_line_no_operators_witness :
    parse_line ["echo", "hi"] none =
      (.ok (some { program := "echo", args := ["hi"] }), []) :=
  parse_line_no_operators "echo" ["hi"] (by decide)

/-- C3: with an existing accumulator, the pipe handler on a non-empty
right-hand segment spawns the accumulator with its stdout set to a pipe and
returns a new specification whose program and arguments come from the
segment and whose stdin is that child's stdout endpoint; on an empty
right-hand segment it returns a usage error without spawning anything. -/
theorem handle_pipe_behavior (prog : String) (rest : List String) (p : Cmd) :
    handle_pipe (prog :: rest) (some p) =
      (.ok (some { program := prog, args := rest,
                   stdin := some (Stdio.ofChild { p with stdout := some .piped }) }),
       [.spawn { p with stdout := some .piped }]) ∧
    handle_pipe [] (some p) = (.err "Usage: <command> | <command>", []) :=
  ⟨rfl, rfl⟩

/-- C4 (failing input): on `echo >` the stdout-redirect handler indexes the
empty operand segment and panics instead of returning an error, while on
`echo <` the stdin-redirect handler does return a usage error. -/
theorem missing_stdout_target_panics :
    parse_line ["echo", ">"] none = (.panic "index out of bounds", []) ∧
    parse_line ["echo", "<"] none =
      (.err "Usage: <command> [args] < <file>", []) := by
  have h1 : is_special "echo" = false := by decide
  have h2 : is_special ">" = true := by decide
  have h3 : is_special "<" = true := by decide
  constructor
  · simp [parse_line, redirect, handle_stdout_redirect, List.findIdx_cons, h1, h2]
  · simp [parse_line, redirect, handle_stdin_redirect, List.findIdx_cons, h1, h3]

/-- C5 (counterexample): the quoted span `">"` in the line `cat ">"` is
emitted as the token `>`, which the classifier does classify as an
operator. -/
theorem quoted_operator_token_is_special :
    lex "cat \">\"" = some ["cat", ">"] ∧ is_special ">" = true :=
  ⟨by decide, by decide⟩

/-- C5 (amended): a double-quoted span is emitted as a single token equal to
the span's contents with the quote characters removed, and that token is
later classified as an operator precisely when the stripped contents
themselves have operator shape. -/
theorem quoted_span_stripped_and_shape (s rest : List Char) (acc : List String)
    (hs : '"' ∉ s) :
    lexAux (s ++ '"' :: rest) true [] acc =
      lexAux rest false [] (String.mk s :: acc) ∧
    (is_special (String.mk s) = true ↔
      (s = ['<'] ∨ s = ['>'] ∨ s = ['|'] ∨ s = ['!'] ∨ ∃ c, s = [c, '>'])) := by
  refine ⟨?_, is_special_mk_iff s⟩
  have h := lexAux_quoted_go s rest [] acc hs
  simpa using h

/-- Witness for the amended C5 at the span `hi` followed by ` x`. -/
theorem quoted_span_stripped_and_shape_witness :
    ('"' ∉ ['h', 'i']) ∧
    (lexAux (['h', 'i'] ++ '"' :: [' ', 'x']) true [] ["cat"] =
       lexAux [' ', 'x'] false [] [String.mk ['h', 'i'], "cat"] ∧
     (is_special (String.mk ['h', 'i']) = true ↔
       (['h', 'i'] = ['<'] ∨ ['h', 'i'] = ['>'] ∨ ['h', 'i'] = ['|'] ∨
        ['h', 'i'] = ['!'] ∨ ∃ c, ['h', 'i'] = [c, '>']))) :=
  ⟨by decide, quoted_span_stripped_and_shape ['h', 'i'] [' ', 'x'] ["cat"] (by decide)⟩

/-- C6: a line starting with an operator token makes `parse_line` (with the
empty accumulator `main` passes) print the expected-program diagnostic and
return no command, with no file opened and no process spawned: the only
effect is the diagnostic itself. -/
theorem parse_line_leading_operator_error (t0 : String) (rest : List String)
    (h : is_special t0 = true) :
    parse_line (t0 :: rest) none =
      (.ok none, [.printError ("Error: Expected program, found " ++ t0)]) := by
  simp [parse_line, h]

/-- Witness for C6 at the token list `["> ", "out.txt"]`-like line `> out.txt`. -/
theorem parse_line_leading_operator_error_witness :
    is_special ">" = true ∧
    parse_line [">", "out.txt"] none =
      (.ok none, [.printError ("Error: Expected program, found " ++ ">")]) :=
  ⟨by decide, parse_line_leading_operator_error ">" ["out.txt"] (by decide)⟩

/-- C7: with an existing accumulator and a non-empty segment, the `2>`
handler creates (create-or-truncate) the named file, binds it as the
specification's stderr, executes the specification immediately
(`command.output()`), copies the captured error output to the real error
stream, and returns that same specification for the normal final execution
step. -/
theorem handle_stderr_redirect_eager (file_name : String) (rest : List String) (p : Cmd) :
    handle_stderr_redirect (file_name :: rest) (some p) =
      (.ok (some { p with stderr := some (.file file_name .truncCreate) }),
       [.openFile file_name .truncCreate,
        .execOutput { p with stderr := some (.file file_name .truncCreate) },
        .writeStderr]) :=
  rfl

/-- C8 (counterexample): on the unterminated-quote line `"abc` the engine
does not surface a lex error and return to the prompt; the `.expect` panic
aborts the whole shell process. -/
theorem lex_failure_aborts_engine :
    main_iteration (.line "\"abc") true = .panicked "Failed to parse" := by
  have hlex : lex "\"abc" = none := by decide
  simp [main_iteration, prompt_and_read, parse, hlex]

/-- C8 (amended): whenever tokenization fails (for example on unterminated
quoting), `parse` panics with `Failed to parse`, aborting the shell process
instead of returning an error value to the caller. -/
theorem parse_panics_on_lex_failure (line : String) (h : lex line = none) :
    parse line = .panic "Failed to parse" := by
  simp [parse, h]

/-- Witness for the amended C8 at the line `"abc`. -/
theorem parse_panics_on_lex_failure_witness :
    lex "\"abc" = none ∧ parse "\"abc" = .panic "Failed to parse" :=
  ⟨by decide, parse_panics_on_lex_failure "\"abc" (by decide)⟩

/-- C9 (counterexample): reaching end of input (`read_line` returns `Ok(0)`
with an empty buffer) does not terminate the read-eval loop: the iteration
falls through to the next prompt. -/
theorem eof_does_not_end_loop :
    main_iteration (.line "") true = IterResult.next := by
  simp [main_iteration, prompt_and_read, parse, lex, lexAux, pushWord,
    is_builtin, builtin_names, parse_line]

/-- C9 (amended): neither end of input nor a read error ends the read-eval
loop (both continue with an empty token list); the loop breaks only when an
entered `exit` command fails to execute, and errors can end the whole
process via panics (for example the tokenizer's `.expect`). -/
theorem loop_continuation_behavior :
    (∀ b, main_iteration (.line "") b = .next) ∧
    (∀ b, main_iteration .readErr b = .next) ∧
    main_iteration (.line "exit\n") true = .brk ∧
    main_iteration (.line "\"a") true = .panicked "Failed to parse" := by
  refine ⟨fun b => ?_, fun b => ?_, ?_, ?_⟩
  · simp [main_iteration, prompt_and_read, parse, lex, lexAux, pushWord,
      is_builtin, builtin_names, parse_line]
  · simp [main_iteration, prompt_and_read, is_builtin, builtin_names, parse_line]
  · have h1 : is_special "exit" = false := by decide
    have hlex : lex "exit\n" = some ["exit"] := by decide
    simp [main_iteration, prompt_and_read, parse, hlex, is_builtin,
      builtin_names, parse_line, redirect, List.findIdx_cons, h1]
  · have hlex : lex "\"a" = none := by decide
    simp [main_iteration, prompt_and_read, parse, hlex]

/-- The dispatcher never reaches an accumulator unwrap when an accumulator
is present. -/
theorem redirect_some_no_unwrap (red : String) (cmd : List String) (p : Cmd) :
    (redirect red cmd (some p)).1 ≠ Res.panic "unwrap on None" := by
  unfold redirect
  split_ifs <;>
    cases cmd <;>
      simp [handle_append_redirect, handle_stderr_redirect,
        handle_stdout_stderr_redirect, handle_stdout_redirect,
        handle_stdin_redirect, handle_pipe]

/-- The dispatcher never reaches an accumulator unwrap when called with the
empty redirector (the plain operand-segment case). -/
theorem redirect_blank_no_unwrap (cmd : List String) (process : Option Cmd) :
    (redirect "" cmd process).1 ≠ Res.panic "unwrap on None" := by
  unfold redirect
  cases cmd <;> simp

/-- C10 (amended): whenever `parse_line` passes a non-empty redirector to
`redirect` the accumulator is present, so the unchecked accumulator unwraps
in the operator handlers can never fire: no outcome of `parse_line`, from
any tokens and any accumulator, is the unwrap panic. -/
theorem parse_line_never_accumulator_unwrap :
    ∀ (tokens : List String) (process : Option Cmd),
      (parse_line tokens process).1 ≠ Res.panic "unwrap on None" := by
  have key : ∀ (n : Nat) (tokens : List String) (process : Option Cmd),
      tokens.length ≤ n →
      (parse_line tokens process).1 ≠ Res.panic "unwrap on None" := by
    intro n
    induction n with
    | zero =>
      intro tokens process hlen
      have h0 : tokens = [] := List.eq_nil_of_length_eq_zero (Nat.le_zero.mp hlen)
      subst h0
      simp [parse_line]
    | succ n ih =>
      intro tokens process hlen
      match tokens with
      | [] => simp [parse_line]
      | t0 :: rest =>
        have hrest : rest.length ≤ n := by
          simp only [List.length_cons] at hlen; omega
        by_cases hsp : is_special t0 = true
        · match process with
          | none => simp [parse_line, hsp]
          | some p =>
            simp only [parse_line, hsp, if_true, Option.isNone_some,
              Bool.false_eq_true, if_false]
            cases hred : redirect t0
                (rest.take (rest.findIdx fun x => is_special x)) (some p) with
            | mk r effs =>
              cases r with
              | ok np =>
                simp only
                exact fun hcontra => ih (rest.drop (rest.findIdx fun x => is_special x))
                  np (le_trans (by simp [List.length_drop]) hrest) hcontra
              | err e => simp
              | panic m =>
                have hno := redirect_some_no_unwrap t0
                  (rest.take (rest.findIdx fun x => is_special x)) p
                rw [hred] at hno
                simpa using hno
        · simp only [parse_line, hsp, Bool.false_eq_true, if_false]
          cases hred : redirect ""
              (t0 :: rest.take (rest.findIdx fun x => is_special x)) process with
          | mk r effs =>
            cases r with
            | ok np =>
              simp only
              exact fun hcontra => ih (rest.drop (rest.findIdx fun x => is_special x))
                np (le_trans (by simp [List.length_drop]) hrest) hcontra
            | err e => simp
            | panic m =>
              have hno := redirect_blank_no_unwrap
                (t0 :: rest.take (rest.findIdx fun x => is_special x)) process
              rw [hred] at hno
              simpa using hno
  intro tokens process
  exact key tokens.length tokens process le_rfl

/-- C10 (counterexample): the non-operator default branch of `redirect` is
also reached for operator-shaped tokens that match none of the seven
spellings: on `echo !` it runs with an empty segment and the first-element
access panics. -/
theorem default_branch_empty_segment_panics :
    parse_line ["echo", "!"] none = (.panic "index out of bounds", []) := by
  have h1 : is_special "echo" = false := by decide
  have h2 : is_special "!" = true := by decide
  simp [parse_line, redirect, List.findIdx_cons, h1, h2]
